import Mathlib

/-!
Verification of the Automated-Drift-Detection-using-IAC repository.

Two scripts are embedded:
* `scripts/Azure Inst.py` — the Resource Group Auditor (`check_azure_drift`):
  iterates over configured Azure resource groups, compares location / tags /
  provisioning state of their resources against a static configuration and
  accumulates a drift report.
* `scripts/root_fallback.py` — the Stack Drift Notifier (`lambda_handler`):
  for each configured CloudFormation stack triggers drift detection, polls
  the detection status, and when the stack is DRIFTED publishes one SNS
  notification listing the drifted resources.

Provider SDK calls (Azure ResourceManagementClient, boto3 CloudFormation and
SNS clients) are modelled as explicit environments; Python exceptions are
modelled as `Except` values.
-/

namespace AzureInst

/-- A live Azure resource as enumerated by
`resource_client.resources.list_by_resource_group`: the script reads its
`name`, `type`, `location` and (possibly absent) `tags`. -/
structure AzResource where
  name : String
  type : String
  location : String
  tags : Option (List (String × String))
deriving DecidableEq

/-- The static `CONFIG` dictionary of `Azure Inst.py`. -/
structure AzConfig where
  subscriptionId : String
  targetRegion : String
  resourceGroups : List String
  expectedTags : List (String × String)
deriving DecidableEq

/-- The concrete `CONFIG` value of `Azure Inst.py`. -/
def CONFIG : AzConfig :=
  { subscriptionId := "YOUR-SUBSCRIPTION-ID-HERE"
    targetRegion := "westeurope"
    resourceGroups := ["rg-production-app-001", "rg-production-db-001"]
    expectedTags := [("Environment", "Production")] }

/-- Python `dict.get`: first matching key, `none` when absent. -/
def lookupTag : List (String × String) → String → Option String
| [], _ => none
| (k, v) :: rest, key => if k = key then some v else lookupTag rest key

/-- One entry of the `drift_report` list built by `check_azure_drift`. -/
inductive Finding where
| missing (resourceGroup : String)
| unhealthy (resourceGroup reason : String)
| drifted (resource type details : String)
deriving DecidableEq

/-- The reason string appended by the region check:
`f"Region: \x7bresource.location\x7d (Expected \x7bCONFIG['TARGET_REGION']\x7d)"`. -/
def regionReason (cfg : AzConfig) (r : AzResource) : String :=
  "Region: " ++ r.location ++ " (Expected " ++ cfg.targetRegion ++ ")"

/-- The reason string appended by the tag check:
`f"Missing Tag: \x7bkey\x7d=\x7bvalue\x7d"`. -/
def tagReason (k v : String) : String :=
  "Missing Tag: " ++ k ++ "=" ++ v

/-- Python `resource.tags or \x7b\x7d`. -/
def currentTags (r : AzResource) : List (String × String) :=
  r.tags.getD []

/-- One iteration of the tag-compliance loop: the state is the
`resource_drifted` flag paired with the accumulated `drift_reasons`;
`current_tags.get(key) != value` triggers a reason. -/
def tagStep (tags : List (String × String)) (st : Bool × List String)
    (kv : String × String) : Bool × List String :=
  if lookupTag tags kv.1 = some kv.2 then st
  else (true, st.2 ++ [tagReason kv.1 kv.2])

/-- The `(resource_drifted, drift_reasons)` state after the region check
followed by the loop over `CONFIG["EXPECTED_TAGS"]`. -/
def resourceState (cfg : AzConfig) (r : AzResource) : Bool × List String :=
  let st0 : Bool × List String :=
    if r.location ≠ cfg.targetRegion then (true, [regionReason cfg r]) else (false, [])
  cfg.expectedTags.foldl (tagStep (currentTags r)) st0

/-- The per-resource body of the inner loop: when the `resource_drifted`
flag is set, append one DRIFTED finding whose `Details` joins all reasons
with `", ".join(drift_reasons)`. -/
def checkResource (cfg : AzConfig) (r : AzResource) : Option Finding :=
  let st := resourceState cfg r
  if st.1 then
    some (.drifted r.name r.type (String.intercalate ", " st.2))
  else none

/-- Outcome of `resource_client.resources.list_by_resource_group(rg_name)`
together with the enumeration of its result: the enumeration may raise
`ClientAuthenticationError` (caught by the outer handler, which breaks the
loop) or any other exception (caught, logged, loop continues). -/
inductive ListOutcome where
| resources (rs : List AzResource)
| authRejected
| failed
deriving DecidableEq

/-- Outcome of `resource_client.resource_groups.get(rg_name)`:
`ResourceNotFoundError` is caught by the inner handler; on success the
group's `provisioning_state` is read and the group's resources are listed. -/
inductive FetchOutcome where
| ok (provisioningState : String) (listing : ListOutcome)
| notFound
| authRejected
| failed
deriving DecidableEq

/-- The Azure provider as seen by one run of `check_azure_drift`:
whether `DefaultAzureCredential` / client construction succeeds, and the
response for each resource-group name. -/
structure AzEnv where
  authOk : Bool
  fetch : String → FetchOutcome

/-- Check 2 of the script: a group whose `provisioning_state` is not
`"Succeeded"` contributes one UNHEALTHY finding. -/
def unhealthyFindings (rg st : String) : List Finding :=
  if st ≠ "Succeeded" then [.unhealthy rg ("State is " ++ st)] else []

/-- The main loop of `check_azure_drift` over `CONFIG["RESOURCE_GROUPS"]`:
not-found groups yield a MISSING finding and the loop continues; a
`ClientAuthenticationError` breaks out of the loop keeping the findings
collected so far; any other exception skips the group. -/
def runGroups (cfg : AzConfig) (env : AzEnv) : List String → List Finding
| [] => []
| rg :: rest =>
  match env.fetch rg with
  | .notFound => .missing rg :: runGroups cfg env rest
  | .authRejected => []
  | .failed => runGroups cfg env rest
  | .ok st listing =>
    match listing with
    | .authRejected => unhealthyFindings rg st
    | .failed => unhealthyFindings rg st ++ runGroups cfg env rest
    | .resources rs =>
        unhealthyFindings rg st ++ rs.filterMap (checkResource cfg)
          ++ runGroups cfg env rest

/-- The final printout of `check_azure_drift`: either the serialized
`drift_report` or the "All checked resources are IN_SYNC and Compliant"
confirmation. -/
inductive Report where
| driftReport (findings : List Finding)
| compliant
deriving DecidableEq

/-- Step 3 of the script: report the findings when any exist. -/
def mkReport (fs : List Finding) : Report :=
  if fs = [] then .compliant else .driftReport fs

/-- The whole `check_azure_drift` run: `none` models the early `return`
when authentication / client construction fails. -/
def check_azure_drift (cfg : AzConfig) (env : AzEnv) : Option Report :=
  if env.authOk then some (mkReport (runGroups cfg env cfg.resourceGroups)) else none

/-- Spec-side description of the reasons accumulated for one resource:
the region reason when the location differs from the target, followed by
one tag reason per expected key whose looked-up value differs. -/
def driftReasons (cfg : AzConfig) (r : AzResource) : List String :=
  (if r.location ≠ cfg.targetRegion then [regionReason cfg r] else [])
    ++ cfg.expectedTags.filterMap (fun kv =>
        if lookupTag (currentTags r) kv.1 = some kv.2 then none
        else some (tagReason kv.1 kv.2))

/-- A group at which the provider raises `ClientAuthenticationError`,
either at the `get` call or while listing its resources. -/
def stopsAuth (env : AzEnv) (rg : String) : Prop :=
  env.fetch rg = .authRejected ∨ ∃ st, env.fetch rg = .ok st .authRejected

/-- Concrete environment in which every group is reported not-found. -/
def envC5 : AzEnv := { authOk := true, fetch := fun _ => .notFound }

/-- Concrete three-group configuration for the mid-loop rejection run. -/
def cfgC6 : AzConfig :=
  { subscriptionId := "sub"
    targetRegion := "westeurope"
    resourceGroups := ["rg-a", "rg-b", "rg-c"]
    expectedTags := [("Environment", "Production")] }

/-- Concrete environment whose second and third groups reject
authentication while the first is reported not-found. -/
def envC6 : AzEnv :=
  { authOk := true
    fetch := fun rg => if rg = "rg-a" then .notFound else .authRejected }

end AzureInst

namespace RootFallback

/-- One record of a `describe_stack_resource_drifts` result page. -/
structure DriftRecord where
  logicalResourceId : String
  resourceType : String
  stackResourceDriftStatus : String
  expectedProperties : Option String
  actualProperties : Option String
deriving DecidableEq

/-- One entry of the `drift_details` list built by `lambda_handler`. -/
structure DriftDetail where
  resource : String
  type : String
  status : String
  expected : String
  actual : String
deriving DecidableEq

/-- The dictionary appended for each drift record; `.get` with default
`'N/A'` models the safe access to the optional property fields. -/
def toDetail (d : DriftRecord) : DriftDetail :=
  { resource := d.logicalResourceId
    type := d.resourceType
    status := d.stackResourceDriftStatus
    expected := d.expectedProperties.getD "N/A"
    actual := d.actualProperties.getD "N/A" }

/-- A `describe_stack_drift_detection_status` response. -/
structure PollResp where
  detectionStatus : String
  stackDriftStatus : String
  detectionStatusReason : Option String
deriving DecidableEq

/-- The AWS side effects consumed by `lambda_handler`, indexed so that the
poll response may vary with the attempt number; `Except.error` models a
raised exception. -/
structure AwsEnv where
  detect : String → Except String String
  poll : String → Nat → Except String PollResp
  resourceDriftPages : String → Except String (List (List DriftRecord))

/-- The static `CONFIG` dictionary of `root_fallback.py`. -/
structure AwsConfig where
  snsTopicArn : String
  stackArns : List String
deriving DecidableEq

/-- The concrete `CONFIG` value of `root_fallback.py`. -/
def CONFIG : AwsConfig :=
  { snsTopicArn := "arn:aws:sns:ap-south-1:471112828084:Detect_Drift"
    stackArns :=
      ["arn:aws:cloudformation:ap-south-1:471112828084:stack/DynamoDB/eac28c70-f209-11ee-8b09-0a02e01a9aa3",
       "arn:aws:cloudformation:ap-south-1:471112828084:stack/EC2instance/74c0e490-f209-11ee-a0af-0aac48631e59",
       "arn:aws:cloudformation:ap-south-1:471112828084:stack/S3Bucket/edefa5f0-f208-11ee-bd3f-06859283fa06"] }

/-- The `max_retries` constant of the polling loop. -/
def max_retries : Nat := 20

/-- Terminal outcome of the polling loop: `complete` carries
`StackDriftStatus`; `timedOut` is the for-else branch. -/
inductive PollOutcome where
| complete (stackDriftStatus : String)
| failed
| timedOut
deriving DecidableEq

/-- The polling loop `for attempt in range(max_retries)` over
`describe_stack_drift_detection_status`: stop on `DETECTION_COMPLETE`
(recording the stack drift status) or `DETECTION_FAILED`; when the fuel is
exhausted without a break the for-else branch yields `timedOut`. -/
def pollLoop (poll : Nat → Except String PollResp) : Nat → Nat → Except String PollOutcome
| _, 0 => .ok .timedOut
| attempt, fuel + 1 =>
  match poll attempt with
  | .error e => .error e
  | .ok resp =>
    if resp.detectionStatus = "DETECTION_COMPLETE" then
      .ok (.complete resp.stackDriftStatus)
    else if resp.detectionStatus = "DETECTION_FAILED" then
      .ok .failed
    else pollLoop poll (attempt + 1) fuel

/-- The `StackResourceDriftStatusFilters` argument passed to the paginator. -/
def statusFilters : List String := ["MODIFIED", "DELETED"]

/-- The service-side effect of `StackResourceDriftStatusFilters`: each
returned page holds only records whose status is in the filter list. -/
def paginateFiltered (pages : List (List DriftRecord)) : List (List DriftRecord) :=
  pages.map (fun pg => pg.filter (fun d => statusFilters.contains d.stackResourceDriftStatus))

/-- The double loop `for page in page_iterator: for drift in page[...]:`
appending one detail dictionary per record of every page. -/
def collectDriftDetails (pages : List (List DriftRecord)) : List DriftDetail :=
  (paginateFiltered pages).foldl (fun acc pg => acc ++ pg.map toDetail) []

/-- Python `stack_name.split('/')` keeping empty segments. -/
def splitSlash : List Char → List (List Char)
| [] => [[]]
| c :: cs =>
  match splitSlash cs with
  | [] => [[]]
  | seg :: rest => if c = '/' then [] :: seg :: rest else (c :: seg) :: rest

/-- The stack-name cleanup
`stack_name.split('/')[-2] if '/' in stack_name else stack_name`;
index `-2` is the second-to-last split segment. -/
def cleanStackName (s : String) : String :=
  if s.data.contains '/' then
    let parts := splitSlash s.data
    String.mk (parts.getD (parts.length - 2) [])
  else s

/-- Textual form of one detail dictionary inside the dumped list. -/
def dumpDetail (d : DriftDetail) : String :=
  "\x7b\"Resource\": \"" ++ d.resource ++ "\", \"Type\": \"" ++ d.type
    ++ "\", \"Status\": \"" ++ d.status ++ "\", \"Expected\": \"" ++ d.expected
    ++ "\", \"Actual\": \"" ++ d.actual ++ "\"\x7d"

/-- Models `json.dumps(drift_details, indent=2, default=str)` as a textual
serialization of the drift list. -/
def dumpDetails (ds : List DriftDetail) : String :=
  "[" ++ String.intercalate ", " (ds.map dumpDetail) ++ "]"

/-- The f-string `message_body`: note the resource count is the length of
the very list that is dumped below it. -/
def messageBody (clean status : String) (details : List DriftDetail) : String :=
  "⚠️ DRIFT DETECTED\n\n" ++ "Stack: " ++ clean ++ "\n" ++ "Status: " ++ status
    ++ "\n\n" ++ "Drifted Resources (" ++ toString details.length ++ "):\n"
    ++ dumpDetails details

/-- One `sns_client.publish` call. -/
structure Publish where
  topicArn : String
  message : String
  subject : String
deriving DecidableEq

/-- The body of the per-stack loop of `lambda_handler`: trigger detection,
poll, on a timeout or a failed detection `continue` without touching
`results`, otherwise fetch details when DRIFTED, publish only when DRIFTED,
and append `f"\x7bclean_stack_name\x7d: \x7bstack_drift_status\x7d"` to the
results. Returns the publishes made and the appended result entry. -/
def processStack (cfg : AwsConfig) (env : AwsEnv) (stackName : String) :
    Except String (List Publish × Option String) :=
  match env.detect stackName with
  | .error e => .error e
  | .ok driftDetectionId =>
    match pollLoop (env.poll driftDetectionId) 0 max_retries with
    | .error e => .error e
    | .ok .timedOut => .ok ([], none)
    | .ok .failed => .ok ([], none)
    | .ok (.complete stackDriftStatus) =>
      let clean := cleanStackName stackName
      if stackDriftStatus = "DRIFTED" then
        match env.resourceDriftPages stackName with
        | .error e => .error e
        | .ok pages =>
          let driftDetails := collectDriftDetails pages
          .ok ([{ topicArn := cfg.snsTopicArn
                  message := messageBody clean stackDriftStatus driftDetails
                  subject := "Drift Report: " ++ clean ++ " [DRIFTED]" }],
               some (clean ++ ": " ++ stackDriftStatus))
      else
        .ok ([], some (clean ++ ": " ++ stackDriftStatus))

/-- The loop `for stack_name in stack_names` with its try / except: an
exception raised while processing one stack is caught, that stack
contributes nothing, and the loop continues. Returns all publishes and the
`results` list in order. -/
def runStacks (cfg : AwsConfig) (env : AwsEnv) : List String → List Publish × List String
| [] => ([], [])
| s :: rest =>
  match processStack cfg env s with
  | .error _ => runStacks cfg env rest
  | .ok (pubs, res) =>
    (pubs ++ (runStacks cfg env rest).1, res.toList ++ (runStacks cfg env rest).2)

/-- The dictionary returned by `lambda_handler`. -/
structure LambdaResponse where
  statusCode : Nat
  body : String
deriving DecidableEq

/-- Models `json.dumps` applied to the final result string. -/
def jsonDumpStr (s : String) : String := "\"" ++ s ++ "\""

/-- Textual form of the Python `results` list inside the f-string. -/
def reprResults (results : List String) : String :=
  "[" ++ String.intercalate ", " (results.map (fun r => "\x27" ++ r ++ "\x27")) ++ "]"

/-- The whole `lambda_handler`: run every configured stack and return the
`statusCode`/`body` dictionary. The `event` argument is ignored by the
script. -/
def lambda_handler (cfg : AwsConfig) (env : AwsEnv) (event : String) : LambdaResponse :=
  { statusCode := 200
    body := jsonDumpStr
      ("Process complete. Results: " ++ reprResults (runStacks cfg env cfg.stackArns).2) }

/-- All SNS publishes performed during one `lambda_handler` run. -/
def handlerPublishes (cfg : AwsConfig) (env : AwsEnv) : List Publish :=
  (runStacks cfg env cfg.stackArns).1

/-- A concrete modified-resource drift record. -/
def recC1A : DriftRecord :=
  { logicalResourceId := "MyTable"
    resourceType := "AWS::DynamoDB::Table"
    stackResourceDriftStatus := "MODIFIED"
    expectedProperties := some "\x7b\x7d"
    actualProperties := none }

/-- A concrete deleted-resource drift record. -/
def recC1B : DriftRecord :=
  { logicalResourceId := "MyBucket"
    resourceType := "AWS::S3::Bucket"
    stackResourceDriftStatus := "DELETED"
    expectedProperties := none
    actualProperties := none }

/-- Two concrete result pages. -/
def pgsC1 : List (List DriftRecord) := [[recC1A], [recC1B]]

/-- Concrete environment whose detection completes with verdict DRIFTED. -/
def envC1 : AwsEnv :=
  { detect := fun _ => .ok "job-1"
    poll := fun _ _ => .ok
      { detectionStatus := "DETECTION_COMPLETE", stackDriftStatus := "DRIFTED"
        detectionStatusReason := none }
    resourceDriftPages := fun _ => .ok pgsC1 }

/-- Concrete environment whose detection completes with verdict IN_SYNC. -/
def envC2 : AwsEnv :=
  { detect := fun _ => .ok "job-2"
    poll := fun _ _ => .ok
      { detectionStatus := "DETECTION_COMPLETE", stackDriftStatus := "IN_SYNC"
        detectionStatusReason := none }
    resourceDriftPages := fun _ => .ok [] }

/-- Concrete environment whose polls never reach a terminal status. -/
def envC3 : AwsEnv :=
  { detect := fun _ => .ok "job-3"
    poll := fun _ _ => .ok
      { detectionStatus := "DETECTION_IN_PROGRESS", stackDriftStatus := "UNKNOWN"
        detectionStatusReason := none }
    resourceDriftPages := fun _ => .ok [] }

/-- A one-stack configuration. -/
def cfgC8 : AwsConfig :=
  { snsTopicArn := "arn:aws:sns:ap-south-1:471112828084:Detect_Drift"
    stackArns := ["MyStack"] }

/-- Concrete environment whose detection fails. -/
def envC8 : AwsEnv :=
  { detect := fun _ => .ok "job-8"
    poll := fun _ _ => .ok
      { detectionStatus := "DETECTION_FAILED", stackDriftStatus := "UNKNOWN"
        detectionStatusReason := some "Internal failure" }
    resourceDriftPages := fun _ => .ok [] }

/-- Concrete environment completing with verdict IN_SYNC under job id
`job-9`. -/
def envC8w : AwsEnv :=
  { detect := fun _ => .ok "job-9"
    poll := fun _ _ => .ok
      { detectionStatus := "DETECTION_COMPLETE", stackDriftStatus := "IN_SYNC"
        detectionStatusReason := none }
    resourceDriftPages := fun _ => .ok [] }

/-- Concrete environment in which every provider call raises. -/
def envC9 : AwsEnv :=
  { detect := fun _ => .error "AccessDenied"
    poll := fun _ _ => .error "AccessDenied"
    resourceDriftPages := fun _ => .error "AccessDenied" }

end RootFallback

namespace AzureInst

theorem intercalate_single (s a : String) : String.intercalate s [a] = a := rfl

theorem foldl_tagStep_eq (tags : List (String × String)) :
    ∀ (l : List (String × String)) (b : Bool) (rs : List String),
      l.foldl (tagStep tags) (b, rs)
        = (b || !(l.filterMap (fun kv =>
              if lookupTag tags kv.1 = some kv.2 then none
              else some (tagReason kv.1 kv.2))).isEmpty,
           rs ++ l.filterMap (fun kv =>
              if lookupTag tags kv.1 = some kv.2 then none
              else some (tagReason kv.1 kv.2))) := by
  intro l
  induction l with
  | nil => intro b rs; simp
  | cons kv l ih =>
    intro b rs
    simp only [List.foldl_cons, List.filterMap_cons]
    by_cases h : lookupTag tags kv.1 = some kv.2
    · simp [tagStep, h, ih]
    · simp [tagStep, h, ih, List.append_assoc]

theorem resourceState_eq (cfg : AzConfig) (r : AzResource) :
    resourceState cfg r = (!(driftReasons cfg r).isEmpty, driftReasons cfg r) := by
  unfold resourceState driftReasons
  by_cases h : r.location = cfg.targetRegion
  · simp [h, foldl_tagStep_eq]
  · simp [h, foldl_tagStep_eq]

theorem checkResource_eq (cfg : AzConfig) (r : AzResource) :
    checkResource cfg r
      = if driftReasons cfg r = [] then none
        else some (.drifted r.name r.type
          (String.intercalate ", " (driftReasons cfg r))) := by
  unfold checkResource
  rw [resourceState_eq]
  by_cases h : driftReasons cfg r = [] <;> simp [h]

theorem driftReasons_nil_iff (cfg : AzConfig) (r : AzResource) :
    driftReasons cfg r = []
      ↔ (r.location = cfg.targetRegion
          ∧ ∀ kv ∈ cfg.expectedTags, lookupTag (currentTags r) kv.1 = some kv.2) := by
  unfold driftReasons
  constructor
  · intro hnil
    rw [List.append_eq_nil] at hnil
    obtain ⟨h1, h2⟩ := hnil
    constructor
    · by_contra hreg
      simp [hreg] at h1
    · intro kv hkv
      have hkv' := List.filterMap_eq_nil_iff.mp h2 kv hkv
      by_contra hp
      simp [hp] at hkv'
  · intro hc
    obtain ⟨hreg, htags⟩ := hc
    rw [List.append_eq_nil]
    constructor
    · simp [hreg]
    · rw [List.filterMap_eq_nil_iff]
      intro kv hkv
      simp [htags kv hkv]

end AzureInst

namespace AzureInst

/-- Claim C4: for every resource of a fetched group, the auditor emits at
most one DRIFTED finding; it is emitted exactly when the location differs
from the configured target region or some expected tag key's looked-up
value differs from the configured value (absence counting as mismatch),
the single finding aggregates all failing reasons, and a compliant
resource produces no finding. -/
theorem resource_drift_finding (cfg : AzConfig) (r : AzResource) :
    (checkResource cfg r
        = some (.drifted r.name r.type (String.intercalate ", " (driftReasons cfg r)))
      ↔ (r.location ≠ cfg.targetRegion
          ∨ ∃ kv ∈ cfg.expectedTags, lookupTag (currentTags r) kv.1 ≠ some kv.2))
  ∧ ((r.location = cfg.targetRegion
        ∧ ∀ kv ∈ cfg.expectedTags, lookupTag (currentTags r) kv.1 = some kv.2)
      → checkResource cfg r = none)
  ∧ (∀ f f', checkResource cfg r = some f → checkResource cfg r = some f' → f = f') := by
  refine ⟨?_, ?_, ?_⟩
  · rw [checkResource_eq]
    by_cases h : driftReasons cfg r = []
    · have hc := (driftReasons_nil_iff cfg r).mp h
      simp only [h, if_true]
      constructor
      · intro hfalse; exact absurd hfalse (by simp)
      · intro hcond
        rcases hcond with hreg | ⟨kv, hkv, hne⟩
        · exact absurd hc.1 hreg
        · exact absurd (hc.2 kv hkv) hne
    · simp only [h, if_false]
      constructor
      · intro _
        by_contra hc
        push_neg at hc
        exact h ((driftReasons_nil_iff cfg r).mpr ⟨hc.1, hc.2⟩)
      · intro _; trivial
  · intro hc
    rw [checkResource_eq]
    simp [(driftReasons_nil_iff cfg r).mpr hc]
  · intro f f' hf hf'
    exact Option.some.inj (hf.symm.trans hf')

/-- Witness for C4 at the concrete configuration and a concrete drifted
resource. -/
theorem resource_drift_finding_witness :
    checkResource CONFIG ⟨"vm0", "Microsoft.Compute/virtualMachines", "eastus", some []⟩
      = some (.drifted "vm0" "Microsoft.Compute/virtualMachines"
          "Region: eastus (Expected westeurope), Missing Tag: Environment=Production") := by
  have h := (resource_drift_finding CONFIG
      ⟨"vm0", "Microsoft.Compute/virtualMachines", "eastus", some []⟩).1.mpr
    (Or.inl (by decide))
  exact h.trans (by decide)

/-- Claim C5: a configured group reported not-found contributes exactly
one MISSING finding, no further checks run on it, and the loop continues
with the remaining groups. -/
theorem missing_group_finding (cfg : AzConfig) (env : AzEnv) (rg : String)
    (rest : List String) (h : env.fetch rg = .notFound) :
    runGroups cfg env (rg :: rest) = .missing rg :: runGroups cfg env rest := by
  simp [runGroups, h]

/-- Witness for C5 on the group name of the spec's scenario. -/
theorem missing_group_finding_witness :
    runGroups CONFIG envC5 ["rg-x"] = [.missing "rg-x"] :=
  (missing_group_finding CONFIG envC5 "rg-x" [] rfl).trans rfl

theorem runGroups_append (cfg : AzConfig) (env : AzEnv) :
    ∀ (l1 l2 : List String), (∀ g ∈ l1, ¬ stopsAuth env g) →
      runGroups cfg env (l1 ++ l2)
        = runGroups cfg env l1 ++ runGroups cfg env l2 := by
  intro l1
  induction l1 with
  | nil => intro l2 _; simp [runGroups]
  | cons g l1 ih =>
    intro l2 h
    have hg : ¬ stopsAuth env g := h g (List.mem_cons_self g l1)
    have hl1 : ∀ x ∈ l1, ¬ stopsAuth env x := fun x hx => h x (List.mem_cons_of_mem _ hx)
    cases hfetch : env.fetch g with
    | notFound => simp [runGroups, hfetch, ih l2 hl1]
    | authRejected => exact absurd (Or.inl hfetch) hg
    | failed => simp [runGroups, hfetch, ih l2 hl1]
    | ok st listing =>
      cases listing with
      | authRejected => exact absurd (Or.inr ⟨st, hfetch⟩) hg
      | failed => simp [runGroups, hfetch, ih l2 hl1]
      | resources rs => simp [runGroups, hfetch, ih l2 hl1, List.append_assoc]

/-- Claim C6: a provider-level authentication rejection while processing
group `g` aborts every remaining iteration — the run's report no longer
depends on the groups after `g` — while every finding collected before the
rejection is kept and the final report is still produced from them. -/
theorem auth_rejection_aborts (cfg : AzConfig) (env : AzEnv) (pre : List String)
    (g : String) (post : List String)
    (hgroups : cfg.resourceGroups = pre ++ g :: post)
    (hauth : env.authOk = true)
    (hpre : ∀ p ∈ pre, ¬ stopsAuth env p) :
    (env.fetch g = .authRejected →
        check_azure_drift cfg env = some (mkReport (runGroups cfg env pre)))
  ∧ (∀ st, env.fetch g = .ok st .authRejected →
        check_azure_drift cfg env
          = some (mkReport (runGroups cfg env pre ++ unhealthyFindings g st))) := by
  constructor
  · intro hg
    unfold check_azure_drift
    rw [hauth, if_pos rfl, hgroups, runGroups_append cfg env pre (g :: post) hpre]
    simp [runGroups, hg]
  · intro st hg
    unfold check_azure_drift
    rw [hauth, if_pos rfl, hgroups, runGroups_append cfg env pre (g :: post) hpre]
    simp [runGroups, hg]

/-- Witness for C6: the second group rejects authentication; the MISSING
finding of the first group survives into the final report and the third
group is never reached. -/
theorem auth_rejection_aborts_witness :
    check_azure_drift cfgC6 envC6 = some (.driftReport [.missing "rg-a"]) := by
  have hpre : ∀ p ∈ ["rg-a"], ¬ stopsAuth envC6 p := by
    intro p hp
    simp only [List.mem_singleton] at hp
    subst hp
    simp [stopsAuth, envC6]
  have h := (auth_rejection_aborts cfgC6 envC6 ["rg-a"] "rg-b" ["rg-c"] rfl rfl hpre).1 rfl
  exact h.trans rfl

/-- Claim C10: an expected tag key that is present with a wrong value
produces the very same `Missing Tag: key=expected` reason — and the very
same finding — as a key that is entirely absent, so the report does not
distinguish the two cases. -/
theorem mismatched_tag_reason (cfg : AzConfig) (n ty loc k v v' : String)
    (hcfg : cfg.expectedTags = [(k, v)]) (hne : v' ≠ v) :
    checkResource cfg ⟨n, ty, loc, some [(k, v')]⟩
        = checkResource cfg ⟨n, ty, loc, some []⟩
  ∧ (loc = cfg.targetRegion →
      checkResource cfg ⟨n, ty, loc, some [(k, v')]⟩
        = some (.drifted n ty (tagReason k v))) := by
  have hr1 : driftReasons cfg ⟨n, ty, loc, some [(k, v')]⟩
      = driftReasons cfg ⟨n, ty, loc, some []⟩ := by
    simp [driftReasons, regionReason, hcfg, currentTags, lookupTag, hne]
  constructor
  · rw [checkResource_eq, checkResource_eq, hr1]
  · intro hloc
    rw [checkResource_eq]
    have hr2 : driftReasons cfg ⟨n, ty, loc, some [(k, v')]⟩ = [tagReason k v] := by
      simp [driftReasons, regionReason, hcfg, currentTags, lookupTag, hne, hloc]
    rw [hr2]
    simp [intercalate_single]

/-- Witness for C10 at the concrete configuration: tag present with the
wrong value `Staging`, reason names the expected value `Production`. -/
theorem mismatched_tag_reason_witness :
    checkResource CONFIG
        ⟨"vm1", "Microsoft.Compute/virtualMachines", "westeurope",
          some [("Environment", "Staging")]⟩
      = some (.drifted "vm1" "Microsoft.Compute/virtualMachines"
          "Missing Tag: Environment=Production") := by
  have h := (mismatched_tag_reason CONFIG "vm1" "Microsoft.Compute/virtualMachines"
      "westeurope" "Environment" "Production" "Staging" rfl (by decide)).2 rfl
  exact h.trans (by decide)

end AzureInst

namespace RootFallback

theorem pollLoop_congr (p p' : Nat → Except String PollResp) :
    ∀ (fuel attempt : Nat),
      (∀ a, attempt ≤ a → a < attempt + fuel → p a = p' a) →
      pollLoop p attempt fuel = pollLoop p' attempt fuel := by
  intro fuel
  induction fuel with
  | zero => intro attempt _; rfl
  | succ fuel ih =>
    intro attempt h
    simp only [pollLoop]
    rw [h attempt (le_refl _) (by omega)]
    cases p' attempt with
    | error e => rfl
    | ok resp =>
      by_cases h1 : resp.detectionStatus = "DETECTION_COMPLETE"
      · simp [h1]
      · by_cases h2 : resp.detectionStatus = "DETECTION_FAILED"
        · simp [h1, h2]
        · simp only [if_neg h1, if_neg h2]
          exact ih (attempt + 1) (fun a ha1 ha2 => h a (by omega) (by omega))

theorem pollLoop_timedOut (p : Nat → Except String PollResp) :
    ∀ (fuel attempt : Nat),
      (∀ a, attempt ≤ a → a < attempt + fuel →
        ∃ r, p a = .ok r ∧ r.detectionStatus ≠ "DETECTION_COMPLETE"
          ∧ r.detectionStatus ≠ "DETECTION_FAILED") →
      pollLoop p attempt fuel = .ok .timedOut := by
  intro fuel
  induction fuel with
  | zero => intro attempt _; rfl
  | succ fuel ih =>
    intro attempt h
    obtain ⟨r, hpa, h1, h2⟩ := h attempt (le_refl _) (by omega)
    simp only [pollLoop, hpa]
    rw [if_neg h1, if_neg h2]
    exact ih (attempt + 1) (fun a ha1 ha2 => h a (by omega) (by omega))

theorem collectDriftDetails_eq (pgs : List (List DriftRecord)) :
    collectDriftDetails pgs
      = (pgs.flatten.filter (fun d =>
          d.stackResourceDriftStatus == "MODIFIED"
            || d.stackResourceDriftStatus == "DELETED")).map toDetail := by
  have hfold : ∀ (l : List (List DriftRecord)) (acc : List DriftDetail),
      l.foldl (fun a pg => a ++ pg.map toDetail) acc = acc ++ l.flatten.map toDetail := by
    intro l
    induction l with
    | nil => intro acc; simp
    | cons pg l ih => intro acc; simp [ih, List.append_assoc]
  have hq : ∀ d : DriftRecord,
      statusFilters.contains d.stackResourceDriftStatus
        = (d.stackResourceDriftStatus == "MODIFIED"
            || d.stackResourceDriftStatus == "DELETED") := by
    intro d
    by_cases h1 : d.stackResourceDriftStatus = "MODIFIED" <;>
      by_cases h2 : d.stackResourceDriftStatus = "DELETED" <;>
        simp [statusFilters, List.contains, h1, h2]
  have hflat : ∀ (q : DriftRecord → Bool) (l : List (List DriftRecord)),
      (l.map (fun pg => pg.filter q)).flatten = l.flatten.filter q := by
    intro q l
    induction l with
    | nil => rfl
    | cons pg l ih =>
      simp only [List.map_cons, List.flatten_cons, List.filter_append, ih]
  unfold collectDriftDetails paginateFiltered
  rw [hfold]
  simp only [List.nil_append, hq]
  rw [hflat]

theorem runStacks_append (cfg : AwsConfig) (env : AwsEnv) :
    ∀ (l1 l2 : List String),
      runStacks cfg env (l1 ++ l2)
        = ((runStacks cfg env l1).1 ++ (runStacks cfg env l2).1,
           (runStacks cfg env l1).2 ++ (runStacks cfg env l2).2) := by
  intro l1 l2
  induction l1 with
  | nil => simp [runStacks]
  | cons s l1 ih =>
    cases hps : processStack cfg env s with
    | error e => simp [runStacks, hps, ih]
    | ok pr =>
      obtain ⟨pubs, res⟩ := pr
      simp [runStacks, hps, ih, List.append_assoc]

/-- Claim C7: the stack-name cleanup keeps the logical name segment of a
path-shaped identifier and returns a separator-free identifier unchanged. -/
theorem clean_stack_name_spec :
    cleanStackName "arn:aws:cloudformation:ap-south-1:471112828084:stack/DynamoDB/eac28c70-f209-11ee-8b09-0a02e01a9aa3" = "DynamoDB"
  ∧ cleanStackName "MyStack" = "MyStack"
  ∧ ∀ s : String, s.data.contains '/' = false → cleanStackName s = s := by
  refine ⟨by decide, by decide, ?_⟩
  intro s h
  have h' : ¬ '/' ∈ s.data := by simpa using h
  simp [cleanStackName, h']

/-- Witness for C7 on another separator-free name. -/
theorem clean_stack_name_spec_witness :
    cleanStackName "TestStack" = "TestStack" :=
  clean_stack_name_spec.2.2 "TestStack" (by decide)

/-- Claim C1: when detection completes with verdict DRIFTED, exactly one
notification is published; its drift list is the per-resource records of
every provider result page filtered to statuses MODIFIED or DELETED, no
page dropped and no other status included, and the count in the message is
the length of that very list. -/
theorem drifted_stack_publish (cfg : AwsConfig) (env : AwsEnv) (s driftId : String)
    (pgs : List (List DriftRecord))
    (hdetect : env.detect s = .ok driftId)
    (hpoll : pollLoop (env.poll driftId) 0 max_retries = .ok (.complete "DRIFTED"))
    (hpages : env.resourceDriftPages s = .ok pgs) :
    processStack cfg env s
      = .ok ([{ topicArn := cfg.snsTopicArn
                message := messageBody (cleanStackName s) "DRIFTED" (collectDriftDetails pgs)
                subject := "Drift Report: " ++ cleanStackName s ++ " [DRIFTED]" }],
             some (cleanStackName s ++ ": DRIFTED"))
  ∧ collectDriftDetails pgs
      = (pgs.flatten.filter (fun d =>
            d.stackResourceDriftStatus == "MODIFIED"
              || d.stackResourceDriftStatus == "DELETED")).map toDetail := by
  constructor
  · unfold processStack
    simp only [hdetect, hpoll, hpages]
    simp
    rw [String.append_assoc]
    rfl
  · exact collectDriftDetails_eq pgs

/-- Witness for C1: a MODIFIED and a DELETED record on two pages both make
it into the single published notification. -/
theorem drifted_stack_publish_witness :
    processStack cfgC8 envC1 "MyStack"
      = .ok ([{ topicArn := cfgC8.snsTopicArn
                message := messageBody "MyStack" "DRIFTED" [toDetail recC1A, toDetail recC1B]
                subject := "Drift Report: MyStack [DRIFTED]" }],
             some "MyStack: DRIFTED")
  ∧ collectDriftDetails pgsC1 = [toDetail recC1A, toDetail recC1B] := by
  have h := drifted_stack_publish cfgC8 envC1 "MyStack" "job-1" pgsC1 rfl rfl rfl
  exact ⟨h.1.trans (by rfl), h.2.trans (by rfl)⟩

/-- Claim C2: when detection completes with verdict IN_SYNC, the stack
publishes nothing and contributes the result entry `cleaned-name: IN_SYNC`
to the run's results. -/
theorem in_sync_no_publish (cfg : AwsConfig) (env : AwsEnv) (s driftId : String)
    (pre post : List String)
    (hdetect : env.detect s = .ok driftId)
    (hpoll : pollLoop (env.poll driftId) 0 max_retries = .ok (.complete "IN_SYNC")) :
    processStack cfg env s = .ok ([], some (cleanStackName s ++ ": IN_SYNC"))
  ∧ runStacks cfg env (pre ++ s :: post)
      = ((runStacks cfg env pre).1 ++ (runStacks cfg env post).1,
         (runStacks cfg env pre).2
           ++ (cleanStackName s ++ ": IN_SYNC") :: (runStacks cfg env post).2) := by
  have hps : processStack cfg env s = .ok ([], some (cleanStackName s ++ ": IN_SYNC")) := by
    unfold processStack
    simp only [hdetect, hpoll]
    simp
    rw [String.append_assoc]
    rfl
  refine ⟨hps, ?_⟩
  rw [runStacks_append cfg env pre (s :: post)]
  simp [runStacks, hps]

/-- Witness for C2 at a concrete in-sync stack. -/
theorem in_sync_no_publish_witness :
    processStack cfgC8 envC2 "MyStack" = .ok ([], some "MyStack: IN_SYNC") := by
  have h := (in_sync_no_publish cfgC8 envC2 "MyStack" "job-2" [] [] rfl rfl).1
  exact h.trans (by rfl)

/-- Claim C3: the polling loop consults the status operation for attempts
below `max_retries` only; when no poll among them is terminal the stack
times out, publishes nothing, contributes no result entry, and the
remaining stacks are still processed. -/
theorem polling_bounded_timeout :
    (∀ (p p' : Nat → Except String PollResp),
        (∀ a, a < max_retries → p a = p' a) →
        pollLoop p 0 max_retries = pollLoop p' 0 max_retries)
  ∧ (∀ (cfg : AwsConfig) (env : AwsEnv) (s driftId : String) (pre post : List String),
      env.detect s = .ok driftId →
      (∀ a, a < max_retries →
        ∃ r, env.poll driftId a = .ok r
          ∧ r.detectionStatus ≠ "DETECTION_COMPLETE"
          ∧ r.detectionStatus ≠ "DETECTION_FAILED") →
      pollLoop (env.poll driftId) 0 max_retries = .ok .timedOut
      ∧ processStack cfg env s = .ok ([], none)
      ∧ runStacks cfg env (pre ++ s :: post)
          = ((runStacks cfg env pre).1 ++ (runStacks cfg env post).1,
             (runStacks cfg env pre).2 ++ (runStacks cfg env post).2)) := by
  constructor
  · intro p p' h
    exact pollLoop_congr p p' max_retries 0 (fun a _ ha2 => h a (by omega))
  · intro cfg env s driftId pre post hdetect hpoll
    have ht : pollLoop (env.poll driftId) 0 max_retries = .ok .timedOut :=
      pollLoop_timedOut (env.poll driftId) max_retries 0 (fun a _ ha2 => hpoll a (by omega))
    have hps : processStack cfg env s = .ok ([], none) := by
      unfold processStack
      simp only [hdetect, ht]
    refine ⟨ht, hps, ?_⟩
    rw [runStacks_append cfg env pre (s :: post)]
    simp [runStacks, hps]

/-- Witness for C3: an environment that always answers
DETECTION_IN_PROGRESS times out and yields nothing. -/
theorem polling_bounded_timeout_witness :
    pollLoop (envC3.poll "job-3") 0 max_retries = .ok .timedOut
  ∧ processStack cfgC8 envC3 "StackA" = .ok ([], none) := by
  have h := polling_bounded_timeout.2 cfgC8 envC3 "StackA" "job-3" [] [] rfl
    (fun a _ => ⟨_, rfl, by decide, by decide⟩)
  exact ⟨h.1, h.2.1⟩

/-- Counterexample to claim C8 as stated: this stack's detection reaches
the terminal status DETECTION_FAILED — it did not time out — yet the run's
result payload contains no entry at all for it. -/
theorem failed_stack_excluded_cex :
    envC8.detect "MyStack" = .ok "job-8"
  ∧ pollLoop (envC8.poll "job-8") 0 max_retries = .ok .failed
  ∧ (runStacks cfgC8 envC8 cfgC8.stackArns).2 = []
  ∧ (lambda_handler cfgC8 envC8 "\x7b\x7d").body
      = jsonDumpStr "Process complete. Results: []" :=
  ⟨rfl, rfl, rfl, rfl⟩

/-- Claim C8 (amended): the run's result payload maps a stack's cleaned
name to its drift verdict exactly when its detection completed; stacks
whose polling timed out and stacks whose detection failed are both
excluded from results. -/
theorem results_entries_amended (cfg : AwsConfig) (env : AwsEnv) (s driftId : String)
    (hdetect : env.detect s = .ok driftId) :
    (∀ v pubs res, pollLoop (env.poll driftId) 0 max_retries = .ok (.complete v) →
        processStack cfg env s = .ok (pubs, res) →
        res = some (cleanStackName s ++ ": " ++ v))
  ∧ (pollLoop (env.poll driftId) 0 max_retries = .ok .failed →
        processStack cfg env s = .ok ([], none))
  ∧ (pollLoop (env.poll driftId) 0 max_retries = .ok .timedOut →
        processStack cfg env s = .ok ([], none)) := by
  refine ⟨?_, ?_, ?_⟩
  · intro v pubs res hpoll hps
    unfold processStack at hps
    simp only [hdetect, hpoll] at hps
    by_cases hv : v = "DRIFTED"
    · rw [if_pos hv] at hps
      cases hpg : env.resourceDriftPages s with
      | error e => rw [hpg] at hps; exact absurd hps (by simp)
      | ok pages =>
        rw [hpg] at hps
        simp only [Except.ok.injEq, Prod.mk.injEq] at hps
        exact hps.2.symm
    · rw [if_neg hv] at hps
      simp only [Except.ok.injEq, Prod.mk.injEq] at hps
      exact hps.2.symm
  · intro hpoll
    unfold processStack
    simp only [hdetect, hpoll]
  · intro hpoll
    unfold processStack
    simp only [hdetect, hpoll]

/-- Witness for the amended C8 at a concrete completed stack. -/
theorem results_entries_amended_witness :
    (some "MyStack: IN_SYNC" : Option String)
      = some (cleanStackName "MyStack" ++ ": " ++ "IN_SYNC") :=
  (results_entries_amended cfgC8 envC8w "MyStack" "job-9" rfl).1 "IN_SYNC" []
    (some "MyStack: IN_SYNC") rfl rfl

/-- Claim C9: `lambda_handler` always returns statusCode 200 with a string
body; an exception while processing one stack is caught at the loop
boundary — the stack contributes nothing and later stacks still run. -/
theorem handler_always_200 (cfg : AwsConfig) (env : AwsEnv) (event : String) :
    (lambda_handler cfg env event).statusCode = 200
  ∧ (∀ (s e : String) (pre post : List String), processStack cfg env s = .error e →
      runStacks cfg env (pre ++ s :: post)
        = ((runStacks cfg env pre).1 ++ (runStacks cfg env post).1,
           (runStacks cfg env pre).2 ++ (runStacks cfg env post).2)) := by
  refine ⟨rfl, ?_⟩
  intro s e pre post hps
  rw [runStacks_append cfg env pre (s :: post)]
  simp [runStacks, hps]

/-- Witness for C9 with an environment in which every provider call
raises. -/
theorem handler_always_200_witness :
    (lambda_handler CONFIG envC9 "\x7b\x7d").statusCode = 200
  ∧ runStacks CONFIG envC9 ["StackA"]
      = ((runStacks CONFIG envC9 []).1 ++ (runStacks CONFIG envC9 []).1,
         (runStacks CONFIG envC9 []).2 ++ (runStacks CONFIG envC9 []).2) := by
  have h := handler_always_200 CONFIG envC9 "\x7b\x7d"
  exact ⟨h.1, h.2 "StackA" "AccessDenied" [] [] rfl⟩

end RootFallback
